import Mathlib

/-!
A shallow embedding of the interstellar-particle simulation: the
`ParticleSystem` class and the planet catalog of `SolarSystem.ts`.

Modelling conventions:
* JavaScript numbers are modelled as rationals (`ℚ`).
* The transcendental primitives the source calls (`Math.sqrt`, `Math.sin`,
  `Math.cos`, `Math.atan2`, `Math.PI`) are parameters of the model, bundled
  in `MathPrims`; theorems quantify over them, and concrete evaluations
  instantiate them with exact values for the inputs that actually occur.
* `Math.random()` is an explicit stream of draws threaded through the code
  in the exact order the source consumes them.
* `THREE.Vector3` is a record of three rationals; the mutating vector
  methods of the source are modelled by their resulting values.
* `normalize()` follows THREE.js semantics: `divideScalar(length() || 1)`,
  so a zero reported length divides by 1.
-/

namespace InterstellarSim

structure Vec3 where
  x : ℚ
  y : ℚ
  z : ℚ
deriving DecidableEq

def Vec3.zero : Vec3 := ⟨0, 0, 0⟩

def Vec3.add (a b : Vec3) : Vec3 := ⟨a.x + b.x, a.y + b.y, a.z + b.z⟩

def Vec3.sub (a b : Vec3) : Vec3 := ⟨a.x - b.x, a.y - b.y, a.z - b.z⟩

def Vec3.smul (s : ℚ) (a : Vec3) : Vec3 := ⟨s * a.x, s * a.y, s * a.z⟩

/-- `THREE.Vector3.crossVectors(a, b)`. -/
def Vec3.cross (a b : Vec3) : Vec3 :=
  ⟨a.y * b.z - a.z * b.y, a.z * b.x - a.x * b.z, a.x * b.y - a.y * b.x⟩

def Vec3.lengthSq (a : Vec3) : ℚ := a.x * a.x + a.y * a.y + a.z * a.z

/-- The mathematical primitives of the JavaScript runtime used by the source. -/
structure MathPrims where
  msqrt : ℚ → ℚ
  msin : ℚ → ℚ
  mcos : ℚ → ℚ
  matan2 : ℚ → ℚ → ℚ
  mpi : ℚ

/-- `v.length()` = `Math.sqrt` of the squared length. -/
def vlen (pr : MathPrims) (a : Vec3) : ℚ := pr.msqrt a.lengthSq

/-- `v.normalize()` in THREE.js is `divideScalar(this.length() || 1)`, and
`divideScalar(s)` multiplies by `1 / s`. -/
def vnormalize (pr : MathPrims) (a : Vec3) : Vec3 :=
  let l := vlen pr a
  Vec3.smul (1 / (if l = 0 then 1 else l)) a

/-- `a.distanceTo(b)`. -/
def vdist (pr : MathPrims) (a b : Vec3) : ℚ := vlen pr (Vec3.sub a b)

inductive ParticleType where
  | hydrogen
  | helium
  | heavyIon
  | dust
deriving DecidableEq

structure Particle where
  position : Vec3
  velocity : Vec3
  mass : ℚ
  charge : ℚ
  type : ParticleType
  active : Bool
  deflected : Bool
  age : ℚ
  energy : ℚ
deriving DecidableEq

/-- `Math.random()` as a stream of draws with a cursor. -/
structure Rng where
  stream : ℕ → ℚ
  idx : ℕ

def Rng.next (g : Rng) : ℚ × Rng := (g.stream g.idx, ⟨g.stream, g.idx + 1⟩)

def gravitationalG : ℚ := 0.001

def solarWindStrength : ℚ := 0.5

def magneticFieldStrength : ℚ := 0.3

def heliopauseRadius : ℚ := 500

def sunPosition : Vec3 := ⟨0, 0, 0⟩

/-- `ParticleSystem.createParticle`, consuming random draws in source order:
type selection, then (for heavy ions) mass and charge, (for dust) mass, then
theta, phi, r, velocity magnitude, and the three thermal components. -/
def createParticle (pr : MathPrims) (g : Rng) : Particle × Rng :=
  let d0 := g.next
  let rand := d0.1
  let tmc :=
    if rand < 0.90 then (ParticleType.hydrogen, (1.0 : ℚ), (1.0 : ℚ), d0.2)
    else if rand < 0.99 then (ParticleType.helium, 4.0, 2.0, d0.2)
    else if rand < 0.998 then
      let dm := d0.2.next
      let dc := dm.2.next
      (ParticleType.heavyIon, 12.0 + dm.1 * 40, 3.0 + dc.1 * 10, dc.2)
    else
      let dm := d0.2.next
      (ParticleType.dust, 1000.0 + dm.1 * 10000, 0, dm.2)
  let g1 := tmc.2.2.2
  let dTheta := g1.next
  let theta := dTheta.1 * pr.mpi * 2
  let dPhi := dTheta.2.next
  let phi := dPhi.1 * pr.mpi
  let dR := dPhi.2.next
  let r := heliopauseRadius * (0.95 + dR.1 * 0.1)
  let position : Vec3 :=
    ⟨r * pr.msin phi * pr.mcos theta, r * pr.msin phi * pr.msin theta, r * pr.mcos phi⟩
  let baseVelocity := vnormalize pr ⟨0.3, -0.1, -0.4⟩
  let dV := dR.2.next
  let velocityMagnitude := 2.0 + dV.1 * 1.0
  let dTx := dV.2.next
  let dTy := dTx.2.next
  let dTz := dTy.2.next
  let thermalVelocity : Vec3 :=
    ⟨(dTx.1 - 0.5) * 0.5, (dTy.1 - 0.5) * 0.5, (dTz.1 - 0.5) * 0.5⟩
  let velocity := Vec3.add (Vec3.smul velocityMagnitude baseVelocity) thermalVelocity
  let energy := 0.5 * tmc.2.1 * velocity.lengthSq * 100
  ({ position := position, velocity := velocity, mass := tmc.2.1,
     charge := tmc.2.2.1, type := tmc.1, active := true, deflected := false,
     age := 0, energy := energy }, dTz.2)

/-- `ParticleSystem.calculateMagneticField`. -/
def calculateMagneticField (pr : MathPrims) (position : Vec3) : Vec3 :=
  let r := vlen pr position
  let theta := pr.matan2 position.z (pr.msqrt (position.x * position.x + position.y * position.y))
  let phi := pr.matan2 position.y position.x
  let br := 0.1 / (r * r + 1)
  let bphi := -0.05 * pr.msin theta / (r + 1)
  let sinPhi := pr.msin phi
  let cosPhi := pr.mcos phi
  let sinTheta := pr.msin theta
  let cosTheta := pr.mcos theta
  ⟨br * sinTheta * cosPhi - bphi * sinPhi,
   br * sinTheta * sinPhi + bphi * cosPhi,
   br * cosTheta⟩

structure CollisionEntry where
  pos : Vec3
  radius : ℚ
deriving DecidableEq

/-- The hardcoded planet table inside `ParticleSystem.checkPlanetaryCollision`. -/
def planetPositions : List CollisionEntry :=
  [⟨⟨5.8, 0, 0⟩, 0.5⟩,
   ⟨⟨10.8, 0, 0⟩, 0.8⟩,
   ⟨⟨15, 0, 0⟩, 0.8⟩,
   ⟨⟨22.8, 0, 0⟩, 0.6⟩,
   ⟨⟨77.8, 0, 0⟩, 2.0⟩,
   ⟨⟨143, 0, 0⟩, 1.5⟩,
   ⟨⟨287, 0, 0⟩, 1.0⟩,
   ⟨⟨450, 0, 0⟩, 1.0⟩]

/-- `ParticleSystem.checkPlanetaryCollision`. -/
def checkPlanetaryCollision (pr : MathPrims) (position : Vec3) : Bool :=
  planetPositions.any fun planet => decide (vdist pr position planet.pos < planet.radius)

/-- `distanceToSun` as computed in `update`: length of `sunPosition - position`. -/
def distanceToSun (pr : MathPrims) (p : Particle) : ℚ :=
  vlen pr (Vec3.sub sunPosition p.position)

/-- The solar-gravity contribution of `update` (zero when the guard
`distanceToSun > 0` fails). -/
def gravityForce (pr : MathPrims) (p : Particle) : Vec3 :=
  let toSun := Vec3.sub sunPosition p.position
  let d := vlen pr toSun
  if d > 0 then
    Vec3.smul ((gravitationalG * 1000 * p.mass) / (d * d)) (vnormalize pr toSun)
  else Vec3.zero

/-- The solar-wind contribution of `update` (zero unless
`0 < distanceToSun < heliopauseRadius`). -/
def solarWindForce (pr : MathPrims) (p : Particle) : Vec3 :=
  let d := distanceToSun pr p
  if d > 0 ∧ d < heliopauseRadius then
    Vec3.smul (solarWindStrength / (d * d + 1)) (vnormalize pr p.position)
  else Vec3.zero

/-- The scaled Lorentz force as built in `update`:
`(velocity × B) * (charge * magneticFieldStrength / mass)`. -/
def lorentzForce (pr : MathPrims) (p : Particle) : Vec3 :=
  Vec3.smul (p.charge * magneticFieldStrength / p.mass)
    (Vec3.cross p.velocity (calculateMagneticField pr p.position))

/-- The guard of the magnetic branch of `update`. -/
def magneticGuard (pr : MathPrims) (p : Particle) : Prop :=
  p.charge ≠ 0 ∧ distanceToSun pr p < heliopauseRadius

instance (pr : MathPrims) (p : Particle) : Decidable (magneticGuard pr p) := by
  unfold magneticGuard
  infer_instance

/-- The accumulated force of one `update` step on an active particle. -/
def totalForce (pr : MathPrims) (p : Particle) : Vec3 :=
  let base := Vec3.add (gravityForce pr p) (solarWindForce pr p)
  if magneticGuard pr p then Vec3.add base (lorentzForce pr p) else base

/-- `velocity.add(acceleration.multiplyScalar(dt))` where
`acceleration = force.divideScalar(mass)`. -/
def newVelocity (pr : MathPrims) (dt : ℚ) (p : Particle) : Vec3 :=
  Vec3.add p.velocity (Vec3.smul dt (Vec3.smul (1 / p.mass) (totalForce pr p)))

/-- `position.add(velocity.clone().multiplyScalar(dt))` with the already
updated velocity. -/
def newPosition (pr : MathPrims) (dt : ℚ) (p : Particle) : Vec3 :=
  Vec3.add p.position (Vec3.smul dt (newVelocity pr dt p))

/-- The sticky `deflected` flag: set when the magnetic branch runs and the
scaled Lorentz force has reported length above `0.1`. -/
def newDeflected (pr : MathPrims) (p : Particle) : Bool :=
  if magneticGuard pr p then
    if vlen pr (lorentzForce pr p) > 0.1 then true else p.deflected
  else p.deflected

def newAge (dt : ℚ) (p : Particle) : ℚ := p.age + dt

/-- The deactivation checks of `update`, run on the post-move position:
capture (`< 2`), escape (`> heliopauseRadius * 1.2`), age (`> 100`) as an
if/else chain, then the planetary-collision check as a separate `if`. -/
def newActive (pr : MathPrims) (dt : ℚ) (p : Particle) : Bool :=
  let pos := newPosition pr dt p
  let afterBounds :=
    if vlen pr pos < 2 then false
    else if vlen pr pos > heliopauseRadius * 1.2 then false
    else if newAge dt p > 100 then false
    else p.active
  if checkPlanetaryCollision pr pos then false else afterBounds

/-- The whole body of the `update` loop for an active particle. -/
def integrateActive (pr : MathPrims) (dt : ℚ) (p : Particle) : Particle :=
  { p with
    age := newAge dt p
    velocity := newVelocity pr dt p
    position := newPosition pr dt p
    deflected := newDeflected pr p
    active := newActive pr dt p }

/-- One iteration of the `update` loop: inactive particles are overwritten by
a fresh spawn (`Object.assign(particle, this.createParticle())`) and skipped,
active ones are integrated. -/
def stepParticle (pr : MathPrims) (dt : ℚ) (p : Particle) (g : Rng) : Particle × Rng :=
  if !p.active then createParticle pr g
  else (integrateActive pr dt p, g)

/-- The `update` loop over the particle array, threading the random stream. -/
def stepAll (pr : MathPrims) (dt : ℚ) : List Particle → Rng → List Particle × Rng
  | [], g => ([], g)
  | p :: ps, g =>
    let h := stepParticle pr dt p g
    let t := stepAll pr dt ps h.2
    (h.1 :: t.1, t.2)

structure EnergyDist where
  low : ℕ
  medium : ℕ
  high : ℕ
deriving DecidableEq

structure TypeCounts where
  hydrogen : ℕ
  helium : ℕ
  ions : ℕ
  dust : ℕ
deriving DecidableEq

structure Stats where
  totalParticles : ℕ
  activeParticles : ℕ
  deflectedParticles : ℕ
  capturedParticles : ℕ
  averageVelocity : ℚ
  energyDistribution : EnergyDist
  particleTypes : TypeCounts
deriving DecidableEq

structure StatAcc where
  activeCount : ℕ
  deflectedCount : ℕ
  capturedCount : ℕ
  totalVelocity : ℚ
  types : TypeCounts
  energy : EnergyDist
deriving DecidableEq

def bumpType (t : TypeCounts) : ParticleType → TypeCounts
  | ParticleType.hydrogen => { t with hydrogen := t.hydrogen + 1 }
  | ParticleType.helium => { t with helium := t.helium + 1 }
  | ParticleType.heavyIon => { t with ions := t.ions + 1 }
  | ParticleType.dust => { t with dust := t.dust + 1 }

def bumpEnergy (e : EnergyDist) (en : ℚ) : EnergyDist :=
  if en < 100 then { e with low := e.low + 1 }
  else if en < 1000 then { e with medium := e.medium + 1 }
  else { e with high := e.high + 1 }

/-- The body of the statistics loop for one particle. -/
def statStep (pr : MathPrims) (acc : StatAcc) (p : Particle) : StatAcc :=
  if p.active then
    { acc with
      activeCount := acc.activeCount + 1
      totalVelocity := acc.totalVelocity + vlen pr p.velocity
      deflectedCount := if p.deflected then acc.deflectedCount + 1 else acc.deflectedCount
      types := bumpType acc.types p.type
      energy := bumpEnergy acc.energy p.energy }
  else { acc with capturedCount := acc.capturedCount + 1 }

def emptyAcc : StatAcc := ⟨0, 0, 0, 0, ⟨0, 0, 0, 0⟩, ⟨0, 0, 0⟩⟩

/-- `ParticleSystem.updateStatistics` as a function of the particle array. -/
def updateStatistics (pr : MathPrims) (ps : List Particle) : Stats :=
  let a := ps.foldl (statStep pr) emptyAcc
  { totalParticles := ps.length
    activeParticles := a.activeCount
    deflectedParticles := a.deflectedCount
    capturedParticles := a.capturedCount
    averageVelocity := if a.activeCount > 0 then a.totalVelocity / (a.activeCount : ℚ) else 0
    energyDistribution := a.energy
    particleTypes := a.types }

structure SysState where
  particles : List Particle
  maxParticles : ℕ
  timeScale : ℚ
  stats : Stats
  rng : Rng

def spawnMany (pr : MathPrims) : ℕ → Rng → List Particle × Rng
  | 0, g => ([], g)
  | n + 1, g =>
    let h := createParticle pr g
    let t := spawnMany pr n h.2
    (h.1 :: t.1, t.2)

/-- `initializeParticles`: rebuild the whole array of `maxParticles` fresh
spawns and recompute statistics (the time scale is untouched). -/
def buildParticles (pr : MathPrims) (maxP : ℕ) (ts : ℚ) (g : Rng) : SysState :=
  let h := spawnMany pr maxP g
  { particles := h.1, maxParticles := maxP, timeScale := ts,
    stats := updateStatistics pr h.1, rng := h.2 }

/-- The `ParticleSystem` constructor (`timeScale` starts at 1). -/
def mkSystem (pr : MathPrims) (maxP : ℕ) (g : Rng) : SysState :=
  buildParticles pr maxP 1 g

/-- `ParticleSystem.update(deltaTime)`. -/
def update (pr : MathPrims) (deltaTime : ℚ) (s : SysState) : SysState :=
  let dt := deltaTime * s.timeScale
  let h := stepAll pr dt s.particles s.rng
  { s with particles := h.1, rng := h.2, stats := updateStatistics pr h.1 }

/-- `ParticleSystem.setTimeScale`. -/
def setTimeScale (scale : ℚ) (s : SysState) : SysState := { s with timeScale := scale }

/-- `ParticleSystem.reset`: re-run `initializeParticles`. -/
def resetSystem (pr : MathPrims) (s : SysState) : SysState :=
  buildParticles pr s.maxParticles s.timeScale s.rng

/-- `ParticleSystem.getPositions`: flat triplets in particle order. -/
def getPositions : List Particle → List ℚ
  | [] => []
  | p :: ps => p.position.x :: p.position.y :: p.position.z :: getPositions ps

/-- The per-type base color of `getColors`. -/
def baseColor : ParticleType → ℚ × ℚ × ℚ
  | ParticleType.hydrogen => (0.4, 0.5, 0.9)
  | ParticleType.helium => (0.9, 0.3, 0.6)
  | ParticleType.heavyIon => (0.1, 0.9, 0.5)
  | ParticleType.dust => (1.0, 0.6, 0.1)

/-- The color triplet `getColors` writes for one particle: black when
inactive, else the per-type base color, each channel times `1.2` when the
particle is deflected (no clamping). -/
def particleColor (p : Particle) : ℚ × ℚ × ℚ :=
  if !p.active then (0, 0, 0)
  else
    let c := baseColor p.type
    if p.deflected then (c.1 * 1.2, c.2.1 * 1.2, c.2.2 * 1.2) else c

/-- `ParticleSystem.getColors`: flat triplets in particle order. -/
def getColors : List Particle → List ℚ
  | [] => []
  | p :: ps =>
    (particleColor p).1 :: (particleColor p).2.1 :: (particleColor p).2.2 :: getColors ps

structure Planet where
  name : String
  position : Vec3
  radius : ℚ
  mass : ℚ
  color : String
deriving DecidableEq

/-- The catalog built by `SolarSystem.initializePlanets`. -/
def solarPlanets : List Planet :=
  [⟨"Mercury", ⟨5.8, 0, 0⟩, 0.3, 0.055, "#8C7853"⟩,
   ⟨"Venus", ⟨10.8, 0, 0⟩, 0.6, 0.815, "#FFC649"⟩,
   ⟨"Earth", ⟨15, 0, 0⟩, 0.6, 1.0, "#4A90E2"⟩,
   ⟨"Mars", ⟨22.8, 0, 0⟩, 0.4, 0.107, "#CD5C5C"⟩,
   ⟨"Jupiter", ⟨77.8, 0, 0⟩, 1.5, 317.8, "#C88B3A"⟩,
   ⟨"Saturn", ⟨143, 0, 0⟩, 1.2, 95.2, "#FAD5A5"⟩,
   ⟨"Uranus", ⟨287, 0, 0⟩, 0.8, 14.5, "#4FD0E7"⟩,
   ⟨"Neptune", ⟨450, 0, 0⟩, 0.8, 17.1, "#4166F5"⟩]

/-!
Reference model for `getStatistics`.  The source returns `{ ...this.stats }`:
the spread copies the top-level fields of the stored record, and the two
object-valued fields (`energyDistribution`, `particleTypes`) are copied as
references to the same objects.  `updateStatistics` stores fresh nested
objects each time it runs.  We model the nested objects behind explicit
addresses into a store, so that reference sharing is observable.
-/

/-- The stored `stats` record at the JavaScript object level: scalar fields
inline, nested objects as addresses. -/
structure StatsRefRec where
  totalParticles : ℕ
  activeParticles : ℕ
  deflectedParticles : ℕ
  capturedParticles : ℕ
  averageVelocity : ℚ
  energyAddr : ℕ
  typesAddr : ℕ
deriving DecidableEq

/-- The store of nested statistics objects. -/
structure StatsHeap where
  energyObjs : ℕ → EnergyDist
  typeObjs : ℕ → TypeCounts
  nextAddr : ℕ

/-- A system together with the object-level view of its stored statistics. -/
structure SysWithHeap where
  core : SysState
  statsRef : StatsRefRec
  heap : StatsHeap

/-- The assignment `this.stats = { ..., energyDistribution: energy,
particleTypes: types }` at the end of `updateStatistics`: the two nested
objects are freshly allocated on every run. -/
def allocStats (pr : MathPrims) (ps : List Particle) (h : StatsHeap) : StatsRefRec × StatsHeap :=
  let st := updateStatistics pr ps
  let ea := h.nextAddr
  let ta := h.nextAddr + 1
  ({ totalParticles := st.totalParticles, activeParticles := st.activeParticles,
     deflectedParticles := st.deflectedParticles, capturedParticles := st.capturedParticles,
     averageVelocity := st.averageVelocity, energyAddr := ea, typesAddr := ta },
   { energyObjs := fun a => if a = ea then st.energyDistribution else h.energyObjs a,
     typeObjs := fun a => if a = ta then st.particleTypes else h.typeObjs a,
     nextAddr := h.nextAddr + 2 })

def emptyHeap : StatsHeap := ⟨fun _ => ⟨0, 0, 0⟩, fun _ => ⟨0, 0, 0, 0⟩, 0⟩

/-- The constructor at the object level. -/
def mkSystemH (pr : MathPrims) (maxP : ℕ) (g : Rng) : SysWithHeap :=
  let core := mkSystem pr maxP g
  let rh := allocStats pr core.particles emptyHeap
  ⟨core, rh.1, rh.2⟩

/-- `getStatistics()`, i.e. `return { ...this.stats }`: a fresh top-level
record with the same field values; the nested objects stay shared addresses. -/
def getStatisticsRef (s : SysWithHeap) : StatsRefRec := s.statsRef

/-- Reading a snapshot's `energyDistribution` dereferences its address. -/
def readEnergy (s : SysWithHeap) (ref : StatsRefRec) : EnergyDist :=
  s.heap.energyObjs ref.energyAddr

/-- A caller mutating `snapshot.energyDistribution.low = v` writes through
the address held by the snapshot. -/
def writeEnergyLow (s : SysWithHeap) (addr : ℕ) (v : ℕ) : SysWithHeap :=
  { s with heap :=
    { s.heap with energyObjs :=
      fun a => if a = addr then { s.heap.energyObjs addr with low := v }
               else s.heap.energyObjs a } }

/-- The public operations a caller can interleave after construction. -/
inductive SysOp where
  | doUpdate (dt : ℚ)
  | doReset
  | doSetTimeScale (scale : ℚ)

def applyOp (pr : MathPrims) : SysOp → SysState → SysState
  | SysOp.doUpdate dt, s => update pr dt s
  | SysOp.doReset, s => resetSystem pr s
  | SysOp.doSetTimeScale q, s => setTimeScale q s

def runOps (pr : MathPrims) (ops : List SysOp) (s : SysState) : SysState :=
  ops.foldl (fun st op => applyOp pr op st) s

/-- A particle's stored state matches one of the four deactivation checks of
`update`: capture, escape, age, planetary collision.  A deactivated particle
retains its terminal position and incremented age, so the condition that
fired still holds of the stored fields. -/
def deactivationCause (pr : MathPrims) (p : Particle) : Prop :=
  vlen pr p.position < 2
  ∨ vlen pr p.position > heliopauseRadius * 1.2
  ∨ p.age > 100
  ∨ checkPlanetaryCollision pr p.position = true

def typesSum (t : TypeCounts) : ℕ := t.hydrogen + t.helium + t.ions + t.dust

/-- The color law as the specification words it: black for inactive
particles, else a fixed per-type tuple (Hydrogen blue, Helium pink, HeavyIon
green, Dust orange), each channel times `1.2` when deflected, unclamped. -/
def specColor (p : Particle) : ℚ × ℚ × ℚ :=
  if p.active = false then (0, 0, 0)
  else
    let boost : ℚ := if p.deflected then 1.2 else 1
    match p.type with
    | ParticleType.hydrogen => (0.4 * boost, 0.5 * boost, 0.9 * boost)
    | ParticleType.helium => (0.9 * boost, 0.3 * boost, 0.6 * boost)
    | ParticleType.heavyIon => (0.1 * boost, 0.9 * boost, 0.5 * boost)
    | ParticleType.dust => (1.0 * boost, 0.6 * boost, 0.1 * boost)

/-!  Concrete instantiations used to evaluate the model on explicit inputs. -/

/-- Primitives that report 0 everywhere (legitimate because the theorems
quantify over the primitives). -/
def zeroPrims : MathPrims := ⟨fun _ => 0, fun _ => 0, fun _ => 0, fun _ _ => 0, 0⟩

/-- The all-zero random stream. -/
def zeroRng : Rng := ⟨fun _ => 0, 0⟩

/-- A placeholder statistics record for handcrafted states. -/
def someStats : Stats := ⟨0, 0, 0, 0, 0, ⟨0, 0, 0⟩, ⟨0, 0, 0, 0⟩⟩

/-- The particle `createParticle` produces from `zeroPrims` and `zeroRng`:
every draw is 0, so the type is hydrogen (mass 1, charge 1), the spawn
position collapses to the origin (all reported sines and cosines are 0), the
base velocity (0.3, -0.1, -0.4) is divided by 1 (reported length 0 triggers
the `|| 1` guard), scaled by magnitude 2 and shifted by thermal -0.25 per
axis, and the energy is `0.5 * 1 * 1.4275 * 100 = 571/8`. -/
def spawnedAtZero : Particle :=
  { position := ⟨0, 0, 0⟩, velocity := ⟨0.35, -0.45, -1.05⟩, mass := 1, charge := 1,
    type := ParticleType.hydrogen, active := true, deflected := false, age := 0,
    energy := 571/8 }

/-- `spawnedAtZero` after one `update` step under `zeroPrims`: no force is
reported, the particle moves to its velocity vector, and the reported
post-move length 0 fires the capture check. -/
def capturedSpecimen : Particle :=
  { position := ⟨0.35, -0.45, -1.05⟩, velocity := ⟨0.35, -0.45, -1.05⟩, mass := 1,
    charge := 1, type := ParticleType.hydrogen, active := false, deflected := false,
    age := 1, energy := 571/8 }

/-- An arbitrary inactive particle awaiting respawn. -/
def inactiveSeed : Particle :=
  { position := Vec3.zero, velocity := Vec3.zero, mass := 1, charge := 1,
    type := ParticleType.hydrogen, active := false, deflected := false, age := 0,
    energy := 0 }

/-- A one-slot system holding an inactive particle. -/
def c1DeadState : SysState := ⟨[inactiveSeed], 1, 1, someStats, zeroRng⟩

/-- An active, neutral particle away from the sun and the planets. -/
def c4Particle : Particle :=
  { position := ⟨3, 0, 0⟩, velocity := ⟨7, 0, 0⟩, mass := 1, charge := 0,
    type := ParticleType.hydrogen, active := true, deflected := false, age := 0,
    energy := 0 }

def c4State : SysState := ⟨[c4Particle], 1, 1, someStats, zeroRng⟩

/-- Square-root primitive for the distance-1000 scenarios: every listed pair
is an exact square root of a value that occurs in the evaluation
(`1000² = 1000000`, `300² = 90000`, `294.2² = 86553.64`, `289.2² = 83636.64`,
`285² = 81225`, `277.2² = 76839.84`, `222.2² = 49372.84`, `157² = 24649`,
`13² = 169`, `150² = 22500`, `700² = 490000`). -/
def c6Prims : MathPrims :=
  ⟨fun q =>
    if q = 1000000 then 1000
    else if q = 90000 then 300
    else if q = 86553.64 then 294.2
    else if q = 83636.64 then 289.2
    else if q = 81225 then 285
    else if q = 76839.84 then 277.2
    else if q = 49372.84 then 222.2
    else if q = 24649 then 157
    else if q = 169 then 13
    else if q = 22500 then 150
    else if q = 490000 then 700
    else 0,
   fun _ => 0, fun _ => 0, fun _ _ => 0, 0⟩

/-- A particle at distance 1000 rushing inward: after the gravity kick of
`1/1000000` its velocity is exactly -700 on the x axis, so one step of size
1 lands it at (300, 0, 0), inside the heliopause and away from every
planet. -/
def c6Particle : Particle :=
  { position := ⟨1000, 0, 0⟩, velocity := ⟨-699999999/1000000, 0, 0⟩, mass := 1,
    charge := 1, type := ParticleType.hydrogen, active := true, deflected := false,
    age := 0, energy := 0 }

def c6State : SysState := ⟨[c6Particle], 1, 1, someStats, zeroRng⟩

/-- A particle at distance 1000 whose tiny outward velocity exactly cancels
the gravity kick, so the step leaves it at (1000, 0, 0). -/
def c6WitnessParticle : Particle :=
  { position := ⟨1000, 0, 0⟩, velocity := ⟨1/1000000, 0, 0⟩, mass := 1, charge := 1,
    type := ParticleType.hydrogen, active := true, deflected := false, age := 0,
    energy := 0 }

def c6WitnessState : SysState := ⟨[c6WitnessParticle], 1, 1, someStats, zeroRng⟩

/-- Square-root primitive for the origin scenarios: every listed pair is an
exact square root of a value that occurs in the evaluation
(`100² = 10000`, `94.2² = 8873.64`, `89.2² = 7956.64`, `85² = 7225`,
`77.2² = 5959.84`, `22.2² = 492.84`, `43² = 1849`, `187² = 34969`,
`350² = 122500`). -/
def c7Prims : MathPrims :=
  ⟨fun q =>
    if q = 10000 then 100
    else if q = 8873.64 then 94.2
    else if q = 7956.64 then 89.2
    else if q = 7225 then 85
    else if q = 5959.84 then 77.2
    else if q = 492.84 then 22.2
    else if q = 1849 then 43
    else if q = 34969 then 187
    else if q = 122500 then 350
    else 0,
   fun _ => 0, fun _ => 0, fun _ _ => 0, 0⟩

/-- A neutral particle sitting exactly at the origin with a large velocity. -/
def c7Particle : Particle :=
  { position := Vec3.zero, velocity := ⟨100, 0, 0⟩, mass := 1, charge := 0,
    type := ParticleType.hydrogen, active := true, deflected := false, age := 0,
    energy := 0 }

def c7State : SysState := ⟨[c7Particle], 1, 1, someStats, zeroRng⟩

/-- A charged particle at the origin in a system whose time scale is 0. -/
def c7WitnessParticle : Particle :=
  { position := Vec3.zero, velocity := ⟨5, 0, 0⟩, mass := 1, charge := 1,
    type := ParticleType.hydrogen, active := true, deflected := false, age := 0,
    energy := 0 }

def c7WitnessState : SysState := ⟨[c7WitnessParticle], 1, 0, someStats, zeroRng⟩

/-- An active, deflected hydrogen particle. -/
def deflHydrogen : Particle :=
  { position := Vec3.zero, velocity := Vec3.zero, mass := 1, charge := 1,
    type := ParticleType.hydrogen, active := true, deflected := true, age := 0,
    energy := 0 }

/-- An inactive particle whose sticky deflected flag is still set. -/
def deadDeflected : Particle :=
  { position := Vec3.zero, velocity := Vec3.zero, mass := 1, charge := 1,
    type := ParticleType.hydrogen, active := false, deflected := true, age := 0,
    energy := 0 }

/-! ## Helper lemmas -/

theorem stepAll_fst_length (pr : MathPrims) (dt : ℚ) :
    ∀ (ps : List Particle) (g : Rng), ((stepAll pr dt ps g).1).length = ps.length
  | [], _ => rfl
  | p :: ps, g => by
    simp [stepAll, stepAll_fst_length pr dt ps]

theorem stepAll_getElem (pr : MathPrims) (dt : ℚ) :
    ∀ (ps : List Particle) (g : Rng) (i : ℕ) (p : Particle),
      ps[i]? = some p →
      ∃ g', (stepAll pr dt ps g).1[i]? = some ((stepParticle pr dt p g').1)
  | [], _, i, p => by simp
  | q :: ps, g, 0, p => by
    intro h
    simp only [List.getElem?_cons_zero, Option.some.injEq] at h
    subst h
    exact ⟨g, by simp [stepAll]⟩
  | q :: ps, g, i + 1, p => by
    intro h
    rw [List.getElem?_cons_succ] at h
    obtain ⟨g', hg⟩ := stepAll_getElem pr dt ps (stepParticle pr dt q g).2 i p h
    exact ⟨g', by simp [stepAll, hg]⟩

theorem mem_stepAll (pr : MathPrims) (dt : ℚ) :
    ∀ (ps : List Particle) (g : Rng) (q : Particle),
      q ∈ (stepAll pr dt ps g).1 →
      ∃ p g', p ∈ ps ∧ q = (stepParticle pr dt p g').1
  | [], g, q => by simp [stepAll]
  | p :: ps, g, q => by
    intro hmem
    simp only [stepAll, List.mem_cons] at hmem
    rcases hmem with h | h
    · exact ⟨p, g, by simp, h⟩
    · obtain ⟨p', g', hp', he⟩ := mem_stepAll pr dt ps (stepParticle pr dt p g).2 q h
      exact ⟨p', g', by simp [hp'], he⟩

theorem spawnMany_fst_length (pr : MathPrims) :
    ∀ (n : ℕ) (g : Rng), ((spawnMany pr n g).1).length = n
  | 0, _ => rfl
  | n + 1, g => by
    simp [spawnMany, spawnMany_fst_length pr n]

theorem mem_spawnMany (pr : MathPrims) :
    ∀ (n : ℕ) (g : Rng) (q : Particle),
      q ∈ (spawnMany pr n g).1 → ∃ g', q = (createParticle pr g').1
  | 0, g, q => by simp [spawnMany]
  | n + 1, g, q => by
    intro hmem
    simp only [spawnMany, List.mem_cons] at hmem
    rcases hmem with h | h
    · exact ⟨g, h⟩
    · exact mem_spawnMany pr n (createParticle pr g).2 q h

theorem createParticle_active (pr : MathPrims) (g : Rng) :
    ((createParticle pr g).1).active = true := rfl

theorem createParticle_age (pr : MathPrims) (g : Rng) :
    ((createParticle pr g).1).age = 0 := rfl

theorem createParticle_deflected (pr : MathPrims) (g : Rng) :
    ((createParticle pr g).1).deflected = false := rfl

theorem vec_add_zero (a : Vec3) : Vec3.add a Vec3.zero = a := by
  cases a
  simp [Vec3.add, Vec3.zero]

theorem vec_smul_zero (a : Vec3) : Vec3.smul 0 a = Vec3.zero := by
  cases a
  simp [Vec3.smul, Vec3.zero]

theorem newVelocity_dt_zero (pr : MathPrims) (p : Particle) :
    newVelocity pr 0 p = p.velocity := by
  simp [newVelocity, vec_smul_zero, vec_add_zero]

theorem newPosition_dt_zero (pr : MathPrims) (p : Particle) :
    newPosition pr 0 p = p.position := by
  simp [newPosition, vec_smul_zero, vec_add_zero]

theorem update_particles (pr : MathPrims) (dtRaw : ℚ) (s : SysState) :
    (update pr dtRaw s).particles
      = (stepAll pr (dtRaw * s.timeScale) s.particles s.rng).1 := rfl

theorem update_getElem_active (pr : MathPrims) (dtRaw : ℚ) (s : SysState) (i : ℕ)
    (p : Particle) (h : s.particles[i]? = some p) (ha : p.active = true) :
    (update pr dtRaw s).particles[i]? = some (integrateActive pr (dtRaw * s.timeScale) p) := by
  obtain ⟨g', hg⟩ := stepAll_getElem pr (dtRaw * s.timeScale) s.particles s.rng i p h
  rw [update_particles, hg]
  simp [stepParticle, ha]

theorem update_getElem_inactive (pr : MathPrims) (dtRaw : ℚ) (s : SysState) (i : ℕ)
    (p : Particle) (h : s.particles[i]? = some p) (ha : p.active = false) :
    ∃ g', (update pr dtRaw s).particles[i]? = some ((createParticle pr g').1) := by
  obtain ⟨g', hg⟩ := stepAll_getElem pr (dtRaw * s.timeScale) s.particles s.rng i p h
  refine ⟨g', ?_⟩
  rw [update_particles, hg]
  simp [stepParticle, ha]

theorem newActive_eq_false_cases (pr : MathPrims) (dt : ℚ) (p : Particle)
    (hact : p.active = true) (h : newActive pr dt p = false) :
    vlen pr (newPosition pr dt p) < 2
    ∨ vlen pr (newPosition pr dt p) > heliopauseRadius * 1.2
    ∨ newAge dt p > 100
    ∨ checkPlanetaryCollision pr (newPosition pr dt p) = true := by
  simp only [newActive] at h
  split_ifs at h <;> simp_all

theorem stepParticle_fst_inactive_cause (pr : MathPrims) (dt : ℚ) (p : Particle) (g : Rng)
    (h : ((stepParticle pr dt p g).1).active = false) :
    deactivationCause pr ((stepParticle pr dt p g).1) := by
  by_cases ha : p.active = true
  · have he : (stepParticle pr dt p g).1 = integrateActive pr dt p := by
      simp [stepParticle, ha]
    rw [he] at h ⊢
    have hcases := newActive_eq_false_cases pr dt p ha h
    exact hcases
  · rw [Bool.not_eq_true] at ha
    have he : (stepParticle pr dt p g).1 = (createParticle pr g).1 := by
      simp [stepParticle, ha]
    rw [he, createParticle_active] at h
    exact absurd h (by simp)

theorem update_inactive_cause (pr : MathPrims) (dtRaw : ℚ) (s : SysState) (q : Particle)
    (hm : q ∈ (update pr dtRaw s).particles) (hq : q.active = false) :
    deactivationCause pr q := by
  rw [update_particles] at hm
  obtain ⟨p, g', _, he⟩ := mem_stepAll pr (dtRaw * s.timeScale) s.particles s.rng q hm
  subst he
  exact stepParticle_fst_inactive_cause pr (dtRaw * s.timeScale) p g' hq

theorem buildParticles_all_active (pr : MathPrims) (maxP : ℕ) (ts : ℚ) (g : Rng)
    (q : Particle) (hm : q ∈ (buildParticles pr maxP ts g).particles) : q.active = true := by
  have hmem : q ∈ (spawnMany pr maxP g).1 := by simpa [buildParticles] using hm
  obtain ⟨g', he⟩ := mem_spawnMany pr maxP g q hmem
  rw [he]
  rfl

theorem runOps_inactive_cause (pr : MathPrims) (ops : List SysOp) :
    ∀ (s : SysState),
      (∀ q ∈ s.particles, q.active = false → deactivationCause pr q) →
      ∀ q ∈ (runOps pr ops s).particles, q.active = false → deactivationCause pr q := by
  induction ops with
  | nil => intro s h; simpa [runOps] using h
  | cons op ops ih =>
    intro s h
    have hfold : runOps pr (op :: ops) s = runOps pr ops (applyOp pr op s) := by
      simp [runOps]
    rw [hfold]
    refine ih (applyOp pr op s) ?_
    cases op with
    | doUpdate dt =>
      intro q hm hq
      exact update_inactive_cause pr dt s q hm hq
    | doReset =>
      intro q hm hq
      have hall := buildParticles_all_active pr s.maxParticles s.timeScale s.rng q
        (by simpa [applyOp, resetSystem] using hm)
      simp [hall] at hq
    | doSetTimeScale sc =>
      intro q hm hq
      exact h q (by simpa [applyOp, setTimeScale] using hm) hq

theorem mkSystem_all_active (pr : MathPrims) (maxP : ℕ) (g : Rng) (q : Particle)
    (hm : q ∈ (mkSystem pr maxP g).particles) : q.active = true :=
  buildParticles_all_active pr maxP 1 g q hm

theorem statStep_counts (pr : MathPrims) (acc : StatAcc) (p : Particle) :
    (statStep pr acc p).activeCount + (statStep pr acc p).capturedCount
        = acc.activeCount + acc.capturedCount + 1
    ∧ typesSum (statStep pr acc p).types + acc.activeCount
        = typesSum acc.types + (statStep pr acc p).activeCount
    ∧ (statStep pr acc p).deflectedCount + acc.activeCount
        ≤ acc.deflectedCount + (statStep pr acc p).activeCount := by
  by_cases hp : p.active = true
  · cases hd : p.deflected <;> cases ht : p.type <;>
      simp [statStep, hp, hd, ht, bumpType, typesSum] <;> omega
  · rw [Bool.not_eq_true] at hp
    simp [statStep, hp, typesSum]
    omega

theorem foldl_statStep_counts (pr : MathPrims) :
    ∀ (ps : List Particle) (acc : StatAcc),
      (ps.foldl (statStep pr) acc).activeCount + (ps.foldl (statStep pr) acc).capturedCount
          = acc.activeCount + acc.capturedCount + ps.length
      ∧ typesSum (ps.foldl (statStep pr) acc).types + acc.activeCount
          = typesSum acc.types + (ps.foldl (statStep pr) acc).activeCount
      ∧ (ps.foldl (statStep pr) acc).deflectedCount + acc.activeCount
          ≤ acc.deflectedCount + (ps.foldl (statStep pr) acc).activeCount
  | [], acc => by simp
  | p :: ps, acc => by
    have h1 := statStep_counts pr acc p
    have h2 := foldl_statStep_counts pr ps (statStep pr acc p)
    simp only [List.foldl_cons, List.length_cons]
    omega

theorem updateStatistics_counts (pr : MathPrims) (ps : List Particle) :
    (updateStatistics pr ps).activeParticles + (updateStatistics pr ps).capturedParticles
        = (updateStatistics pr ps).totalParticles
    ∧ typesSum (updateStatistics pr ps).particleTypes = (updateStatistics pr ps).activeParticles
    ∧ (updateStatistics pr ps).deflectedParticles ≤ (updateStatistics pr ps).activeParticles := by
  have h := foldl_statStep_counts pr ps emptyAcc
  simp only [updateStatistics, emptyAcc] at h ⊢
  simp only [typesSum] at h ⊢
  omega

theorem runOps_statsOK (pr : MathPrims) (ops : List SysOp) :
    ∀ (s : SysState), s.stats = updateStatistics pr s.particles →
      (runOps pr ops s).stats = updateStatistics pr (runOps pr ops s).particles := by
  induction ops with
  | nil => intro s h; simpa [runOps] using h
  | cons op ops ih =>
    intro s h
    have hfold : runOps pr (op :: ops) s = runOps pr ops (applyOp pr op s) := by
      simp [runOps]
    rw [hfold]
    refine ih (applyOp pr op s) ?_
    cases op with
    | doUpdate dt => rfl
    | doReset => rfl
    | doSetTimeScale sc => simpa [applyOp, setTimeScale] using h

theorem mkSystem_statsOK (pr : MathPrims) (maxP : ℕ) (g : Rng) :
    (mkSystem pr maxP g).stats = updateStatistics pr (mkSystem pr maxP g).particles := rfl

theorem runOps_maxParticles (pr : MathPrims) (ops : List SysOp) :
    ∀ (s : SysState), (runOps pr ops s).maxParticles = s.maxParticles := by
  induction ops with
  | nil => intro s; simp [runOps]
  | cons op ops ih =>
    intro s
    have hfold : runOps pr (op :: ops) s = runOps pr ops (applyOp pr op s) := by
      simp [runOps]
    rw [hfold, ih]
    cases op with
    | doUpdate dt => rfl
    | doReset => rfl
    | doSetTimeScale sc => rfl

theorem runOps_sized (pr : MathPrims) (ops : List SysOp) :
    ∀ (s : SysState), s.particles.length = s.maxParticles →
      (runOps pr ops s).particles.length = (runOps pr ops s).maxParticles := by
  induction ops with
  | nil => intro s h; simpa [runOps] using h
  | cons op ops ih =>
    intro s h
    have hfold : runOps pr (op :: ops) s = runOps pr ops (applyOp pr op s) := by
      simp [runOps]
    rw [hfold]
    refine ih (applyOp pr op s) ?_
    cases op with
    | doUpdate dt =>
      simpa [applyOp, update_particles, stepAll_fst_length, update] using h
    | doReset =>
      simp [applyOp, resetSystem, buildParticles, spawnMany_fst_length]
    | doSetTimeScale sc => simpa [applyOp, setTimeScale] using h

theorem mkSystem_sized (pr : MathPrims) (maxP : ℕ) (g : Rng) :
    (mkSystem pr maxP g).particles.length = (mkSystem pr maxP g).maxParticles := by
  simp [mkSystem, buildParticles, spawnMany_fst_length]

theorem getPositions_cons (p : Particle) (ps : List Particle) :
    getPositions (p :: ps)
      = p.position.x :: p.position.y :: p.position.z :: getPositions ps := rfl

theorem getPositions_length : ∀ ps : List Particle, (getPositions ps).length = 3 * ps.length
  | [] => rfl
  | p :: ps => by
    have ih := getPositions_length ps
    simp only [getPositions_cons, List.length_cons, ih]
    omega

theorem getColors_cons (p : Particle) (ps : List Particle) :
    getColors (p :: ps)
      = (particleColor p).1 :: (particleColor p).2.1 :: (particleColor p).2.2
          :: getColors ps := rfl

theorem getColors_length : ∀ ps : List Particle, (getColors ps).length = 3 * ps.length
  | [] => rfl
  | p :: ps => by
    have ih := getColors_length ps
    simp only [getColors_cons, List.length_cons, ih]
    omega

theorem getPositions_getElem :
    ∀ (ps : List Particle) (i : ℕ) (p : Particle), ps[i]? = some p →
      (getPositions ps)[3 * i]? = some p.position.x
      ∧ (getPositions ps)[3 * i + 1]? = some p.position.y
      ∧ (getPositions ps)[3 * i + 2]? = some p.position.z
  | [], i, p => by simp
  | q :: ps, 0, p => by
    intro h
    simp only [List.getElem?_cons_zero, Option.some.injEq] at h
    subst h
    simp [getPositions_cons]
  | q :: ps, i + 1, p => by
    intro h
    rw [List.getElem?_cons_succ] at h
    have ih := getPositions_getElem ps i p h
    refine ⟨?_, ?_, ?_⟩
    · have e : 3 * (i + 1) = 3 * i + 1 + 1 + 1 := by ring
      rw [getPositions_cons, e, List.getElem?_cons_succ, List.getElem?_cons_succ,
        List.getElem?_cons_succ]
      exact ih.1
    · have e : 3 * (i + 1) + 1 = 3 * i + 1 + 1 + 1 + 1 := by ring
      rw [getPositions_cons, e, List.getElem?_cons_succ, List.getElem?_cons_succ,
        List.getElem?_cons_succ]
      exact ih.2.1
    · have e : 3 * (i + 1) + 2 = 3 * i + 2 + 1 + 1 + 1 := by ring
      rw [getPositions_cons, e, List.getElem?_cons_succ, List.getElem?_cons_succ,
        List.getElem?_cons_succ]
      exact ih.2.2

theorem getColors_getElem :
    ∀ (ps : List Particle) (i : ℕ) (p : Particle), ps[i]? = some p →
      (getColors ps)[3 * i]? = some (particleColor p).1
      ∧ (getColors ps)[3 * i + 1]? = some (particleColor p).2.1
      ∧ (getColors ps)[3 * i + 2]? = some (particleColor p).2.2
  | [], i, p => by simp
  | q :: ps, 0, p => by
    intro h
    simp only [List.getElem?_cons_zero, Option.some.injEq] at h
    subst h
    simp [getColors_cons]
  | q :: ps, i + 1, p => by
    intro h
    rw [List.getElem?_cons_succ] at h
    have ih := getColors_getElem ps i p h
    refine ⟨?_, ?_, ?_⟩
    · have e : 3 * (i + 1) = 3 * i + 1 + 1 + 1 := by ring
      rw [getColors_cons, e, List.getElem?_cons_succ, List.getElem?_cons_succ,
        List.getElem?_cons_succ]
      exact ih.1
    · have e : 3 * (i + 1) + 1 = 3 * i + 1 + 1 + 1 + 1 := by ring
      rw [getColors_cons, e, List.getElem?_cons_succ, List.getElem?_cons_succ,
        List.getElem?_cons_succ]
      exact ih.2.1
    · have e : 3 * (i + 1) + 2 = 3 * i + 2 + 1 + 1 + 1 := by ring
      rw [getColors_cons, e, List.getElem?_cons_succ, List.getElem?_cons_succ,
        List.getElem?_cons_succ]
      exact ih.2.2

theorem particleColor_eq_specColor (p : Particle) : particleColor p = specColor p := by
  cases ha : p.active <;> cases hd : p.deflected <;> cases ht : p.type <;>
    norm_num [particleColor, specColor, baseColor, ha, hd, ht]

theorem particleColor_bounds (p : Particle) :
    (0 ≤ (particleColor p).1 ∧ (particleColor p).1 ≤ 1.44)
    ∧ (0 ≤ (particleColor p).2.1 ∧ (particleColor p).2.1 ≤ 1.44)
    ∧ (0 ≤ (particleColor p).2.2 ∧ (particleColor p).2.2 ≤ 1.44) := by
  cases ha : p.active <;> cases hd : p.deflected <;> cases ht : p.type <;>
    norm_num [particleColor, baseColor, ha, hd, ht]

theorem getColors_mem_bounds :
    ∀ (ps : List Particle) (c : ℚ), c ∈ getColors ps → 0 ≤ c ∧ c ≤ 1.44
  | [], c => by simp [getColors]
  | p :: ps, c => by
    intro h
    simp only [getColors_cons, List.mem_cons] at h
    have hb := particleColor_bounds p
    rcases h with h | h | h | h
    · exact h ▸ hb.1
    · exact h ▸ hb.2.1
    · exact h ▸ hb.2.2
    · exact getColors_mem_bounds ps c h

/-! ## Claim theorems -/

/-- C1: a particle that is inactive at the start of an update call was
deactivated by one of capture, escape, age or collision (its stored state
satisfies the corresponding check), and by the end of the very next `update`
call the slot holds a freshly spawned particle (`age = 0`, `active = true`,
`deflected = false`, fields produced by `createParticle`), with integration
and deactivation skipped for that slot; hence no particle stays inactive
across two consecutive update calls. -/
theorem c1_respawn_and_causes :
    (∀ (pr : MathPrims) (maxP : ℕ) (g : Rng) (ops : List SysOp) (q : Particle),
        q ∈ (runOps pr ops (mkSystem pr maxP g)).particles → q.active = false →
        deactivationCause pr q)
    ∧ (∀ (pr : MathPrims) (dtRaw : ℚ) (s : SysState) (i : ℕ) (p : Particle),
        s.particles[i]? = some p → p.active = false →
        ∃ q, (update pr dtRaw s).particles[i]? = some q ∧ q.active = true
          ∧ q.age = 0 ∧ q.deflected = false ∧ ∃ g', q = (createParticle pr g').1) := by
  constructor
  · intro pr maxP g ops q hmem hq
    refine runOps_inactive_cause pr ops (mkSystem pr maxP g) ?_ q hmem hq
    intro q' hm' hq'
    have hact := mkSystem_all_active pr maxP g q' hm'
    simp [hact] at hq'
  · intro pr dtRaw s i p h ha
    obtain ⟨g', hg⟩ := update_getElem_inactive pr dtRaw s i p h ha
    exact ⟨(createParticle pr g').1, hg, createParticle_active pr g',
      createParticle_age pr g', createParticle_deflected pr g', g', rfl⟩

/-- C2: for every snapshot produced by `updateStatistics` along any trace of
operations after construction, `activeParticles + capturedParticles =
totalParticles`, and the four per-type counts sum to `activeParticles`. -/
theorem c2_statistics_sums (pr : MathPrims) (maxP : ℕ) (g : Rng) (ops : List SysOp) :
    (runOps pr ops (mkSystem pr maxP g)).stats.activeParticles
        + (runOps pr ops (mkSystem pr maxP g)).stats.capturedParticles
      = (runOps pr ops (mkSystem pr maxP g)).stats.totalParticles
    ∧ typesSum (runOps pr ops (mkSystem pr maxP g)).stats.particleTypes
      = (runOps pr ops (mkSystem pr maxP g)).stats.activeParticles := by
  have h := runOps_statsOK pr ops (mkSystem pr maxP g) (mkSystem_statsOK pr maxP g)
  rw [h]
  have hc := updateStatistics_counts pr (runOps pr ops (mkSystem pr maxP g)).particles
  exact ⟨hc.1, hc.2.1⟩

/-- C3 counterexample: at index 0 the collision-table radius is 0.5 while
the SolarSystem catalog radius is 0.3, so the claimed radius equality fails. -/
theorem c3_radii_counterexample :
    (planetPositions.map fun e => e.radius)[0]? = some (0.5 : ℚ)
    ∧ (solarPlanets.map fun p => p.radius)[0]? = some (0.3 : ℚ)
    ∧ ((0.5 : ℚ) ≠ 0.3) := by
  refine ⟨by norm_num [planetPositions], by norm_num [solarPlanets], by norm_num⟩

/-- C3 amended: the 8 collision-table positions equal the 8 catalog
positions index by index, but the radii differ at every index — the
collision table uses (0.5, 0.8, 0.8, 0.6, 2.0, 1.5, 1.0, 1.0) while the
catalog uses (0.3, 0.6, 0.6, 0.4, 1.5, 1.2, 0.8, 0.8). -/
theorem c3_positions_match_radii_differ :
    planetPositions.map (fun e => e.pos) = solarPlanets.map (fun p => p.position)
    ∧ planetPositions.map (fun e => e.radius) = [0.5, 0.8, 0.8, 0.6, 2.0, 1.5, 1.0, 1.0]
    ∧ solarPlanets.map (fun p => p.radius) = [0.3, 0.6, 0.6, 0.4, 1.5, 1.2, 0.8, 0.8]
    ∧ ∀ i : Fin 8, (planetPositions.map fun e => e.radius)[(i : ℕ)]?
        ≠ (solarPlanets.map fun p => p.radius)[(i : ℕ)]? := by
  refine ⟨rfl, rfl, rfl, ?_⟩
  intro i
  fin_cases i <;> norm_num [planetPositions, solarPlanets]

/-- C4: after `setTimeScale(0)`, one `update(1.0)` leaves every active
particle's position, velocity and age exactly unchanged (the effective step
`dt = 1 * 0 = 0` degenerates the integration). -/
theorem c4_zero_time_scale (pr : MathPrims) (s : SysState) (i : ℕ) (p : Particle)
    (h : s.particles[i]? = some p) (ha : p.active = true) :
    ∃ q, (update pr 1 (setTimeScale 0 s)).particles[i]? = some q
      ∧ q.position = p.position ∧ q.velocity = p.velocity ∧ q.age = p.age := by
  have h' : (setTimeScale 0 s).particles[i]? = some p := h
  have hg := update_getElem_active pr 1 (setTimeScale 0 s) i p h' ha
  have e : (1 : ℚ) * (setTimeScale 0 s).timeScale = 0 := by
    simp [setTimeScale]
  rw [e] at hg
  refine ⟨integrateActive pr 0 p, hg, ?_, ?_, ?_⟩
  · show newPosition pr 0 p = p.position
    exact newPosition_dt_zero pr p
  · show newVelocity pr 0 p = p.velocity
    exact newVelocity_dt_zero pr p
  · show newAge 0 p = p.age
    simp [newAge]

/-- C5 amended: `getStatistics` returns a shallow copy — the snapshot equals
the stored record (so repeated calls with no intervening update agree, and
writing through the snapshot does not replace the stored record), but the
nested `energyDistribution` object is shared by reference, so mutating it
through the snapshot is visible to every later `getStatistics` read. -/
theorem c5_shallow_copy (s : SysWithHeap) (v : ℕ) :
    getStatisticsRef s = s.statsRef
    ∧ (writeEnergyLow s (getStatisticsRef s).energyAddr v).statsRef = s.statsRef
    ∧ (readEnergy (writeEnergyLow s (getStatisticsRef s).energyAddr v)
        (getStatisticsRef (writeEnergyLow s (getStatisticsRef s).energyAddr v))).low = v := by
  refine ⟨rfl, rfl, ?_⟩
  simp [readEnergy, writeEnergyLow, getStatisticsRef]

/-- C5 counterexample: on a freshly built empty system the stored low-energy
count is 0; after mutating the nested `energyDistribution` object obtained
from a `getStatistics` snapshot, a later `getStatistics` read reports 999 —
the returned snapshot is not an immutable copy. -/
theorem c5_shallow_copy_counterexample :
    (readEnergy (mkSystemH zeroPrims 0 zeroRng)
      (getStatisticsRef (mkSystemH zeroPrims 0 zeroRng))).low = 0
    ∧ (readEnergy
        (writeEnergyLow (mkSystemH zeroPrims 0 zeroRng)
          (getStatisticsRef (mkSystemH zeroPrims 0 zeroRng)).energyAddr 999)
        (getStatisticsRef (writeEnergyLow (mkSystemH zeroPrims 0 zeroRng)
          (getStatisticsRef (mkSystemH zeroPrims 0 zeroRng)).energyAddr 999))).low = 999 := by
  constructor <;>
    simp [mkSystemH, mkSystem, buildParticles, spawnMany, allocStats, updateStatistics,
      emptyAcc, emptyHeap, getStatisticsRef, readEnergy, writeEnergyLow]

/-- C6 amended: an active particle at reported distance 1000 is deactivated
by the escape check after one `update` provided its post-integration
position still lies beyond `heliopauseRadius * 1.2 = 600`; with a large
enough inward `velocity * dt` the step can land it inside the boundary, in
which case it is not marked escaped. -/
theorem c6_escape_when_still_beyond (pr : MathPrims) (s : SysState) (dtRaw : ℚ) (i : ℕ)
    (p : Particle) (h : s.particles[i]? = some p) (ha : p.active = true)
    (_hstart : vlen pr p.position = 1000)
    (hafter : vlen pr (newPosition pr (dtRaw * s.timeScale) p) > heliopauseRadius * 1.2) :
    (update pr dtRaw s).particles[i]? = some (integrateActive pr (dtRaw * s.timeScale) p)
    ∧ (integrateActive pr (dtRaw * s.timeScale) p).active = false := by
  refine ⟨update_getElem_active pr dtRaw s i p h ha, ?_⟩
  show newActive pr (dtRaw * s.timeScale) p = false
  simp only [newActive]
  have h2 : ¬ vlen pr (newPosition pr (dtRaw * s.timeScale) p) < 2 := by
    have hb : (2 : ℚ) ≤ heliopauseRadius * 1.2 := by norm_num [heliopauseRadius]
    linarith
  rw [if_neg h2, if_pos hafter]
  exact ite_self false

/-- C7 amended: for an active particle exactly at the origin, the gravity
and solar-wind terms contribute exactly zero force (the distance guards
short-circuit given that the square root of 0 is 0), and the particle is
flagged captured by the `distance < 2` check provided its post-integration
position still lies within distance 2 (with `dt = 0` this holds regardless
of velocity; a large `velocity * dt` can carry it out of the capture
zone). -/
theorem c7_origin_zero_forces (pr : MathPrims) (s : SysState) (dtRaw : ℚ) (i : ℕ)
    (p : Particle) (hsq : pr.msqrt 0 = 0) (h : s.particles[i]? = some p)
    (hpos : p.position = Vec3.zero) (ha : p.active = true) :
    gravityForce pr p = Vec3.zero
    ∧ solarWindForce pr p = Vec3.zero
    ∧ (vlen pr (newPosition pr (dtRaw * s.timeScale) p) < 2 →
        (update pr dtRaw s).particles[i]? = some (integrateActive pr (dtRaw * s.timeScale) p)
        ∧ (integrateActive pr (dtRaw * s.timeScale) p).active = false) := by
  have hd : vlen pr (Vec3.sub sunPosition p.position) = 0 := by
    rw [hpos]
    norm_num [vlen, Vec3.sub, Vec3.lengthSq, sunPosition, Vec3.zero, hsq]
  refine ⟨?_, ?_, ?_⟩
  · simp only [gravityForce]
    rw [hd]
    norm_num
  · simp only [solarWindForce, distanceToSun]
    rw [hd]
    norm_num
  · intro hcap
    refine ⟨update_getElem_active pr dtRaw s i p h ha, ?_⟩
    show newActive pr (dtRaw * s.timeScale) p = false
    simp only [newActive]
    rw [if_pos hcap]
    exact ite_self false

/-- C8: after any sequence of update / reset / setTimeScale calls the
position and color buffers have length exactly `3 * maxParticles`; triplet
`i` holds particle `i`'s coordinates; construction with `maxParticles = 0`
yields an empty position buffer, `totalParticles = 0`, and an
`averageVelocity` of 0 rather than a division fault. -/
theorem c8_buffer_lengths :
    (∀ (pr : MathPrims) (maxP : ℕ) (g : Rng) (ops : List SysOp),
        (getPositions (runOps pr ops (mkSystem pr maxP g)).particles).length = 3 * maxP
        ∧ (getColors (runOps pr ops (mkSystem pr maxP g)).particles).length = 3 * maxP)
    ∧ (∀ (ps : List Particle) (i : ℕ) (p : Particle), ps[i]? = some p →
        (getPositions ps)[3 * i]? = some p.position.x
        ∧ (getPositions ps)[3 * i + 1]? = some p.position.y
        ∧ (getPositions ps)[3 * i + 2]? = some p.position.z)
    ∧ (∀ (pr : MathPrims) (g : Rng),
        getPositions (mkSystem pr 0 g).particles = []
        ∧ (mkSystem pr 0 g).stats.totalParticles = 0
        ∧ (mkSystem pr 0 g).stats.averageVelocity = 0) := by
  refine ⟨?_, getPositions_getElem, ?_⟩
  · intro pr maxP g ops
    have hlen := runOps_sized pr ops (mkSystem pr maxP g) (mkSystem_sized pr maxP g)
    have hmax : (runOps pr ops (mkSystem pr maxP g)).maxParticles = maxP := by
      rw [runOps_maxParticles]
      rfl
    rw [getPositions_length, getColors_length, hlen, hmax]
    exact ⟨rfl, rfl⟩
  · intro pr g
    exact ⟨rfl, rfl, rfl⟩

/-- C9: `getColors` writes, for particle `i`, triplet `i` of the buffer as
the fixed per-type RGB tuple (Hydrogen (0.4,0.5,0.9), Helium (0.9,0.3,0.6),
HeavyIon (0.1,0.9,0.5), Dust (1.0,0.6,0.1)), black for inactive particles,
each channel times 1.2 when deflected without clamping; every buffer value
lies in [0, 1.44]. -/
theorem c9_color_law :
    (∀ (ps : List Particle) (i : ℕ) (p : Particle), ps[i]? = some p →
        (getColors ps)[3 * i]? = some (specColor p).1
        ∧ (getColors ps)[3 * i + 1]? = some (specColor p).2.1
        ∧ (getColors ps)[3 * i + 2]? = some (specColor p).2.2)
    ∧ (∀ (ps : List Particle) (c : ℚ), c ∈ getColors ps → 0 ≤ c ∧ c ≤ 1.44) := by
  refine ⟨?_, getColors_mem_bounds⟩
  intro ps i p h
  have hg := getColors_getElem ps i p h
  rw [particleColor_eq_specColor] at hg
  exact hg

/-- C10: in every snapshot along any trace, `deflectedParticles` counts only
active particles so it never exceeds `activeParticles`; an inactive particle
whose deflected flag is still set is counted as captured, not deflected. -/
theorem c10_deflected_le_active :
    (∀ (pr : MathPrims) (maxP : ℕ) (g : Rng) (ops : List SysOp),
        (runOps pr ops (mkSystem pr maxP g)).stats.deflectedParticles
          ≤ (runOps pr ops (mkSystem pr maxP g)).stats.activeParticles)
    ∧ (∀ pr : MathPrims,
        (updateStatistics pr [deadDeflected]).deflectedParticles = 0
        ∧ (updateStatistics pr [deadDeflected]).capturedParticles = 1
        ∧ deadDeflected.deflected = true ∧ deadDeflected.active = false) := by
  constructor
  · intro pr maxP g ops
    have h := runOps_statsOK pr ops (mkSystem pr maxP g) (mkSystem_statsOK pr maxP g)
    rw [h]
    exact (updateStatistics_counts pr (runOps pr ops (mkSystem pr maxP g)).particles).2.2
  · intro pr
    refine ⟨?_, ?_, rfl, rfl⟩ <;>
      simp [updateStatistics, statStep, emptyAcc, deadDeflected]

/-! ## Witnesses and counterexamples -/

/-- Witness for C1: a one-particle system whose particle gets captured in
the first update (so the trace invariant applies to a genuinely inactive
particle), and a one-slot system holding an inactive particle that the next
update respawns. -/
theorem c1_respawn_and_causes_witness :
    (capturedSpecimen
        ∈ (runOps zeroPrims [SysOp.doUpdate 1] (mkSystem zeroPrims 1 zeroRng)).particles
      ∧ capturedSpecimen.active = false
      ∧ deactivationCause zeroPrims capturedSpecimen)
    ∧ (c1DeadState.particles[0]? = some inactiveSeed
      ∧ inactiveSeed.active = false
      ∧ ∃ q, (update zeroPrims 1 c1DeadState).particles[0]? = some q ∧ q.active = true
          ∧ q.age = 0 ∧ q.deflected = false
          ∧ ∃ g', q = (createParticle zeroPrims g').1) := by
  have htrace :
      (runOps zeroPrims [SysOp.doUpdate 1] (mkSystem zeroPrims 1 zeroRng)).particles
        = [capturedSpecimen] := by
    norm_num [runOps, applyOp, update, stepAll, stepParticle, integrateActive, newActive,
      newDeflected, newVelocity, newPosition, newAge, totalForce, gravityForce,
      solarWindForce, lorentzForce, magneticGuard, calculateMagneticField, distanceToSun,
      checkPlanetaryCollision, planetPositions, vdist, vnormalize, vlen,
      Vec3.lengthSq, Vec3.add, Vec3.sub, Vec3.smul, Vec3.cross, Vec3.zero,
      heliopauseRadius, gravitationalG, solarWindStrength, magneticFieldStrength,
      sunPosition, mkSystem, buildParticles, spawnMany, createParticle, Rng.next,
      zeroRng, zeroPrims, capturedSpecimen]
  have hmem : capturedSpecimen
      ∈ (runOps zeroPrims [SysOp.doUpdate 1] (mkSystem zeroPrims 1 zeroRng)).particles := by
    rw [htrace]
    simp
  exact ⟨⟨hmem, rfl,
      c1_respawn_and_causes.1 zeroPrims 1 zeroRng [SysOp.doUpdate 1] capturedSpecimen hmem rfl⟩,
    rfl, rfl, c1_respawn_and_causes.2 zeroPrims 1 c1DeadState 0 inactiveSeed rfl rfl⟩

/-- Witness for C4: a concrete active particle keeps its position, velocity
and age through `update(1.0)` after `setTimeScale(0)`. -/
theorem c4_zero_time_scale_witness :
    c4State.particles[0]? = some c4Particle ∧ c4Particle.active = true
    ∧ ∃ q, (update zeroPrims 1 (setTimeScale 0 c4State)).particles[0]? = some q
        ∧ q.position = c4Particle.position ∧ q.velocity = c4Particle.velocity
        ∧ q.age = c4Particle.age :=
  ⟨rfl, rfl, c4_zero_time_scale zeroPrims c4State 0 c4Particle rfl rfl⟩

/-- Counterexample for C6: a particle at reported distance 1000 with inward
velocity -699.999999 lands at (300, 0, 0) after one unit step (the gravity
kick makes the velocity exactly -700), inside the boundary and away from
every planet, so it stays active — refuting deactivation regardless of
velocity. -/
theorem c6_distant_particle_counterexample :
    vlen c6Prims c6Particle.position = 1000
    ∧ c6Particle.active = true
    ∧ (update c6Prims 1 c6State).particles.map Particle.active = [true] := by
  refine ⟨by norm_num [vlen, Vec3.lengthSq, c6Particle, c6Prims], rfl, ?_⟩
  norm_num [update, stepAll, stepParticle, integrateActive, newActive, newDeflected,
    newVelocity, newPosition, newAge, totalForce, gravityForce, solarWindForce,
    lorentzForce, magneticGuard, calculateMagneticField, distanceToSun,
    checkPlanetaryCollision, planetPositions, vdist, vnormalize, vlen,
    Vec3.lengthSq, Vec3.add, Vec3.sub, Vec3.smul, Vec3.cross, Vec3.zero,
    heliopauseRadius, gravitationalG, solarWindStrength, magneticFieldStrength,
    sunPosition, c6State, c6Particle, c6Prims]

/-- Witness for C6 (amended): a particle at distance 1000 whose tiny outward
velocity cancels the gravity kick stays at (1000, 0, 0) after the step and
is deactivated by the escape check. -/
theorem c6_escape_when_still_beyond_witness :
    c6WitnessState.particles[0]? = some c6WitnessParticle
    ∧ c6WitnessParticle.active = true
    ∧ vlen c6Prims c6WitnessParticle.position = 1000
    ∧ vlen c6Prims (newPosition c6Prims (1 * c6WitnessState.timeScale) c6WitnessParticle)
        > heliopauseRadius * 1.2
    ∧ (update c6Prims 1 c6WitnessState).particles[0]?
        = some (integrateActive c6Prims (1 * c6WitnessState.timeScale) c6WitnessParticle)
    ∧ (integrateActive c6Prims (1 * c6WitnessState.timeScale) c6WitnessParticle).active
        = false := by
  have h1000 : vlen c6Prims c6WitnessParticle.position = 1000 := by
    norm_num [vlen, Vec3.lengthSq, c6WitnessParticle, c6Prims]
  have hafter :
      vlen c6Prims (newPosition c6Prims (1 * c6WitnessState.timeScale) c6WitnessParticle)
        > heliopauseRadius * 1.2 := by
    norm_num [newPosition, newVelocity, totalForce, gravityForce, solarWindForce,
      lorentzForce, magneticGuard, calculateMagneticField, distanceToSun, vnormalize,
      vlen, Vec3.lengthSq, Vec3.add, Vec3.sub, Vec3.smul, Vec3.cross, Vec3.zero,
      heliopauseRadius, gravitationalG, solarWindStrength, magneticFieldStrength,
      sunPosition, c6WitnessState, c6WitnessParticle, c6Prims]
  obtain ⟨ha, hb⟩ :=
    c6_escape_when_still_beyond c6Prims c6WitnessState 1 0 c6WitnessParticle rfl rfl h1000 hafter
  exact ⟨rfl, rfl, h1000, hafter, ha, hb⟩

/-- Counterexample for C7: a neutral particle at the origin with velocity
(100, 0, 0) moves to (100, 0, 0) in one unit step, so the boundary check
does not capture it and it stays active — refuting the claim that a
particle placed at the origin is flagged captured. -/
theorem c7_origin_counterexample :
    c7Particle.position = Vec3.zero ∧ c7Particle.active = true
    ∧ (update c7Prims 1 c7State).particles.map Particle.active = [true] := by
  refine ⟨rfl, rfl, ?_⟩
  norm_num [update, stepAll, stepParticle, integrateActive, newActive, newDeflected,
    newVelocity, newPosition, newAge, totalForce, gravityForce, solarWindForce,
    lorentzForce, magneticGuard, calculateMagneticField, distanceToSun,
    checkPlanetaryCollision, planetPositions, vdist, vnormalize, vlen,
    Vec3.lengthSq, Vec3.add, Vec3.sub, Vec3.smul, Vec3.cross, Vec3.zero,
    heliopauseRadius, gravitationalG, solarWindStrength, magneticFieldStrength,
    sunPosition, c7State, c7Particle, c7Prims]

/-- Witness for C7 (amended): a charged particle at the origin in a system
with time scale 0 — the forces are zero and the particle is captured. -/
theorem c7_origin_zero_forces_witness :
    zeroPrims.msqrt 0 = 0
    ∧ c7WitnessState.particles[0]? = some c7WitnessParticle
    ∧ c7WitnessParticle.position = Vec3.zero
    ∧ c7WitnessParticle.active = true
    ∧ vlen zeroPrims (newPosition zeroPrims (1 * c7WitnessState.timeScale) c7WitnessParticle)
        < 2
    ∧ gravityForce zeroPrims c7WitnessParticle = Vec3.zero
    ∧ solarWindForce zeroPrims c7WitnessParticle = Vec3.zero
    ∧ (update zeroPrims 1 c7WitnessState).particles[0]?
        = some (integrateActive zeroPrims (1 * c7WitnessState.timeScale) c7WitnessParticle)
    ∧ (integrateActive zeroPrims (1 * c7WitnessState.timeScale) c7WitnessParticle).active
        = false := by
  have hcap :
      vlen zeroPrims (newPosition zeroPrims (1 * c7WitnessState.timeScale) c7WitnessParticle)
        < 2 := by
    norm_num [newPosition, newVelocity, totalForce, gravityForce, solarWindForce,
      lorentzForce, magneticGuard, calculateMagneticField, distanceToSun, vnormalize,
      vlen, Vec3.lengthSq, Vec3.add, Vec3.sub, Vec3.smul, Vec3.cross, Vec3.zero,
      heliopauseRadius, gravitationalG, solarWindStrength, magneticFieldStrength,
      sunPosition, c7WitnessState, c7WitnessParticle, zeroPrims]
  obtain ⟨hg, hw, hrest⟩ :=
    c7_origin_zero_forces zeroPrims c7WitnessState 1 0 c7WitnessParticle rfl rfl rfl rfl
  obtain ⟨hu, hf⟩ := hrest hcap
  exact ⟨rfl, rfl, rfl, rfl, hcap, hg, hw, hu, hf⟩

/-- Witness for C8: the singleton list holding a concrete particle — its
position triplet sits at offsets 0, 1, 2 of the buffer. -/
theorem c8_buffer_lengths_witness :
    ([c4Particle] : List Particle)[0]? = some c4Particle
    ∧ (getPositions [c4Particle])[3 * 0]? = some c4Particle.position.x
    ∧ (getPositions [c4Particle])[3 * 0 + 1]? = some c4Particle.position.y
    ∧ (getPositions [c4Particle])[3 * 0 + 2]? = some c4Particle.position.z :=
  ⟨rfl, c8_buffer_lengths.2.1 [c4Particle] 0 c4Particle rfl⟩

/-- Witness for C9: a deflected hydrogen particle — its triplet is the
boosted blue tuple and the boosted channel 0.48 lies inside the bounds. -/
theorem c9_color_law_witness :
    ([deflHydrogen] : List Particle)[0]? = some deflHydrogen
    ∧ ((getColors [deflHydrogen])[3 * 0]? = some (specColor deflHydrogen).1
      ∧ (getColors [deflHydrogen])[3 * 0 + 1]? = some (specColor deflHydrogen).2.1
      ∧ (getColors [deflHydrogen])[3 * 0 + 2]? = some (specColor deflHydrogen).2.2)
    ∧ ((0.48 : ℚ) ∈ getColors [deflHydrogen]
      ∧ 0 ≤ (0.48 : ℚ) ∧ (0.48 : ℚ) ≤ 1.44) := by
  have hmem : (0.48 : ℚ) ∈ getColors [deflHydrogen] := by
    norm_num [getColors, getColors_cons, particleColor, baseColor, deflHydrogen]
  have hb := c9_color_law.2 [deflHydrogen] 0.48 hmem
  exact ⟨rfl, c9_color_law.1 [deflHydrogen] 0 deflHydrogen rfl, hmem, hb.1, hb.2⟩

end InterstellarSim
